import Mathlib

/-
Verification of the GPU register-file core of this repository
(source/video_core/src/core/hw/gpu.h): register layout, bit-packed
accessors, physical-address decoding, and the trigger/status protocol of
the three hardware engines (memory fill, display transfer / texture copy,
command-processor submission).

Machine integers are modelled as Nat with explicit reduction modulo 2^32
where 32-bit overflow matters.
-/

/-- The modulus of u32 arithmetic, 2^32. -/
def U32_MOD : Nat := 4294967296

/-- Extraction of `BitFieldLegacy<pos, len, u32>` from a raw 32-bit word:
the value of the field is `(x >> pos) & ((1 << len) - 1)`, here written
arithmetically as `x / 2^pos % 2^len`. -/
def bitField (pos len x : Nat) : Nat := x / 2 ^ pos % 2 ^ len

/-- Error outcomes named by the specification (§7): `OutOfRange` for
offsets beyond the register space, `InvalidFormat` for format codes
outside the 5-entry format table. -/
inductive GPUError where
  | OutOfRange
  | InvalidFormat
  deriving DecidableEq

/-- The five pixel formats referenced by `gpu.h` from the
`GenericImageFormat` enum (declared in framework/image_format.hpp). -/
inductive GenericImageFormat where
  | RGBA8
  | RGB8
  | RGB565
  | RGBA5551
  | RGBA4
  deriving DecidableEq

/-! ## Register layout

`struct Regs` is a sequence of padding blocks and named sub-structures,
each a fixed number of 32-bit words. The word counts below are read off
the member lists of `gpu.h` in source order. -/

/-- `INSERT_PADDING_WORDS(0x4)` before `memory_fill_config`. -/
def pad0Words : Nat := 0x4

/-- Words of one `memory_fill_config` entry: `address_start`,
`address_end`, the fill-value union, the control union. -/
def memoryFillConfigWords : Nat := 1 + 1 + 1 + 1

/-- `INSERT_PADDING_WORDS(0x10b)` after `memory_fill_config`. -/
def pad1Words : Nat := 0x10b

/-- Words of one `framebuffer_config` entry: size union, 0x2 padding,
`address_left1`, `address_left2`, `format`, 0x1 padding, active_fb union,
0x5 padding, `stride`, `address_right1`, `address_right2`, 0x30 padding. -/
def framebufferConfigWords : Nat := 1 + 0x2 + 1 + 1 + 1 + 0x1 + 1 + 0x5 + 1 + 1 + 1 + 0x30

/-- `INSERT_PADDING_WORDS(0x169)` after `framebuffer_config`. -/
def pad2Words : Nat := 0x169

/-- Words of `display_transfer_config`: `input_address`, `output_address`,
the `display_transfer` sub-struct (2 words), the flags union, 0x1 padding,
`trigger`, 0x1 padding, the `texture_copy` sub-struct (3 words). -/
def displayTransferConfigWords : Nat := 1 + 1 + 2 + 1 + 0x1 + 1 + 0x1 + 3

/-- `INSERT_PADDING_WORDS(0x32d)` after `display_transfer_config`. -/
def pad3Words : Nat := 0x32d

/-- Words of `command_processor_config`: `size`, 0x1 padding, `address`,
0x1 padding, `trigger`. -/
def commandProcessorConfigWords : Nat := 1 + 0x1 + 1 + 0x1 + 1

/-- Final `INSERT_PADDING_WORDS(0x9c3)`. -/
def pad4Words : Nat := 0x9c3

/-- Word offset of `memory_fill_config[i]` in `Regs`. -/
def memory_fill_config_offset (i : Nat) : Nat :=
  pad0Words + i * memoryFillConfigWords

/-- Word offset of `framebuffer_config[i]` in `Regs`. -/
def framebuffer_config_offset (i : Nat) : Nat :=
  pad0Words + 2 * memoryFillConfigWords + pad1Words + i * framebufferConfigWords

/-- Word offset of `display_transfer_config` in `Regs`. -/
def display_transfer_config_offset : Nat :=
  framebuffer_config_offset 2 + pad2Words

/-- Word offset of `command_processor_config` in `Regs`. -/
def command_processor_config_offset : Nat :=
  display_transfer_config_offset + displayTransferConfigWords + pad3Words

/-- Total number of 32-bit words in `Regs` (`NumIds()`). -/
def regsTotalWords : Nat :=
  command_processor_config_offset + commandProcessorConfigWords + pad4Words

/-! ## Typed register views -/

/-- `Regs::FramebufferFormat::format_map`: the fixed five-entry table from
raw format codes to pixel formats. -/
def FramebufferFormat.format_map : List GenericImageFormat :=
  [GenericImageFormat.RGBA8,
   GenericImageFormat.RGB8,
   GenericImageFormat.RGB565,
   GenericImageFormat.RGBA5551,
   GenericImageFormat.RGBA4]

/-- `Regs::DecodeAddressRegister`: `register_value * 8` in u32 arithmetic. -/
def DecodeAddressRegister (register_value : Nat) : Nat :=
  register_value * 8 % U32_MOD

/-- One entry of `memory_fill_config`: start/end address registers, the
fill-value union (kept as its raw 32-bit word) and the control union
(raw word; `trigger` is bit 0, `finished` bit 1, `fill_24bit` bit 8,
`fill_32bit` bit 9). -/
structure MemoryFillConfig where
  address_start : Nat
  address_end : Nat
  value_32bit : Nat
  control : Nat

/-- `trigger` bit-field of the control word (`BitFieldLegacy<0, 1, u32>`). -/
def MemoryFillConfig.trigger (c : MemoryFillConfig) : Nat :=
  bitField 0 1 c.control

/-- `finished` bit-field of the control word (`BitFieldLegacy<1, 1, u32>`). -/
def MemoryFillConfig.finished (c : MemoryFillConfig) : Nat :=
  bitField 1 1 c.control

/-- `memory_fill_config[i].GetStartAddress()`. -/
def MemoryFillConfig.GetStartAddress (c : MemoryFillConfig) : Nat :=
  DecodeAddressRegister c.address_start

/-- `memory_fill_config[i].GetEndAddress()`. -/
def MemoryFillConfig.GetEndAddress (c : MemoryFillConfig) : Nat :=
  DecodeAddressRegister c.address_end

/-- The `texture_copy` sub-struct of `display_transfer_config`. -/
structure TextureCopyConfig where
  total_bytes_to_copy : Nat
  input_size_with_padding : Nat
  output_size_with_padding : Nat

/-- `texture_copy.InputBytesPerLine()`:
`(input_size_with_padding & 0xffff) * 16`. -/
def TextureCopyConfig.InputBytesPerLine (c : TextureCopyConfig) : Nat :=
  (c.input_size_with_padding &&& 0xffff) * 16 % U32_MOD

/-- `texture_copy.OutputBytesPerLine()`:
`(output_size_with_padding & 0xffff) * 16`. -/
def TextureCopyConfig.OutputBytesPerLine (c : TextureCopyConfig) : Nat :=
  (c.output_size_with_padding &&& 0xffff) * 16 % U32_MOD

/-- `texture_copy.InputPaddingBytesPerLine()`:
`(input_size_with_padding >> 16) * 16`. -/
def TextureCopyConfig.InputPaddingBytesPerLine (c : TextureCopyConfig) : Nat :=
  (c.input_size_with_padding >>> 16) * 16 % U32_MOD

/-- `texture_copy.OutputPaddingBytesPerLine()`:
`(output_size_with_padding >> 16) * 16`. -/
def TextureCopyConfig.OutputPaddingBytesPerLine (c : TextureCopyConfig) : Nat :=
  (c.output_size_with_padding >>> 16) * 16 % U32_MOD

/-- `texture_copy.InputTotalBytesPerLine()`:
`InputBytesPerLine() + InputPaddingBytesPerLine()` in u32 arithmetic. -/
def TextureCopyConfig.InputTotalBytesPerLine (c : TextureCopyConfig) : Nat :=
  (c.InputBytesPerLine + c.InputPaddingBytesPerLine) % U32_MOD

/-- `texture_copy.OutputTotalBytesPerLine()`:
`OutputBytesPerLine() + OutputPaddingBytesPerLine()` in u32 arithmetic. -/
def TextureCopyConfig.OutputTotalBytesPerLine (c : TextureCopyConfig) : Nat :=
  (c.OutputBytesPerLine + c.OutputPaddingBytesPerLine) % U32_MOD

/-- `display_transfer_config`: addresses, the nested size pairs (kept as
raw words), the flags union (raw word), the trigger word and the
`texture_copy` parameters. -/
structure DisplayTransferConfig where
  input_address : Nat
  output_address : Nat
  output_size : Nat
  input_size : Nat
  flags : Nat
  trigger : Nat
  texture_copy : TextureCopyConfig

/-- `display_transfer_config.GetPhysicalInputAddress()`. -/
def DisplayTransferConfig.GetPhysicalInputAddress (d : DisplayTransferConfig) : Nat :=
  DecodeAddressRegister d.input_address

/-- `display_transfer_config.GetPhysicalOutputAddress()`. -/
def DisplayTransferConfig.GetPhysicalOutputAddress (d : DisplayTransferConfig) : Nat :=
  DecodeAddressRegister d.output_address

/-- `command_processor_config`: command-list size and address (both in
8-byte units) and the trigger word. -/
structure CommandProcessorConfig where
  size : Nat
  address : Nat
  trigger : Nat

/-- `command_processor_config.GetPhysicalAddress()`. -/
def CommandProcessorConfig.GetPhysicalAddress (c : CommandProcessorConfig) : Nat :=
  DecodeAddressRegister c.address

/-! ## Claim theorems -/

/-- C1: Every named register field sits at exactly the word offset given
by the fixed offset table (`memory_fill_config[0]` at word 0x004,
`memory_fill_config[1]` at 0x008, `framebuffer_config[0]` at 0x117,
`framebuffer_config[1]` at 0x157, `display_transfer_config` at 0x300,
`command_processor_config` at 0x638), and the whole register file is
exactly 0x1000 32-bit words (16384 bytes). -/
theorem C1_register_layout :
    memory_fill_config_offset 0 = 0x004 ∧
    memory_fill_config_offset 1 = 0x008 ∧
    framebuffer_config_offset 0 = 0x117 ∧
    framebuffer_config_offset 1 = 0x157 ∧
    display_transfer_config_offset = 0x300 ∧
    command_processor_config_offset = 0x638 ∧
    regsTotalWords = 0x1000 ∧
    regsTotalWords * 4 = 16384 := by
  decide

/-- C5: For every 32-bit register value x, `DecodeAddressRegister` returns
x*8 reduced modulo 2^32, including x = 0 and x = 0xFFFFFFFF, and the same
function is applied uniformly to memory-fill addresses, display-transfer
addresses, and `command_processor_config.address`. -/
theorem C5_decode_address :
    (∀ x : Nat, DecodeAddressRegister x = x * 8 % 2 ^ 32) ∧
    DecodeAddressRegister 0 = 0 ∧
    DecodeAddressRegister 0xFFFFFFFF = 0xFFFFFFF8 ∧
    (∀ c : MemoryFillConfig,
      c.GetStartAddress = DecodeAddressRegister c.address_start ∧
      c.GetEndAddress = DecodeAddressRegister c.address_end) ∧
    (∀ d : DisplayTransferConfig,
      d.GetPhysicalInputAddress = DecodeAddressRegister d.input_address ∧
      d.GetPhysicalOutputAddress = DecodeAddressRegister d.output_address) ∧
    (∀ c : CommandProcessorConfig,
      c.GetPhysicalAddress = DecodeAddressRegister c.address) := by
  refine ⟨fun x => rfl, by decide, by decide, fun c => ⟨rfl, rfl⟩,
    fun d => ⟨rfl, rfl⟩, fun c => rfl⟩

/-- C6: When `input_size_with_padding` holds 0x00050010, the derived
per-line quantities are `InputBytesPerLine() = 256`,
`InputPaddingBytesPerLine() = 80` and `InputTotalBytesPerLine() = 336`. -/
theorem C6_texture_copy_example :
    TextureCopyConfig.InputBytesPerLine ⟨0, 0x00050010, 0⟩ = 256 ∧
    TextureCopyConfig.InputPaddingBytesPerLine ⟨0, 0x00050010, 0⟩ = 80 ∧
    TextureCopyConfig.InputTotalBytesPerLine ⟨0, 0x00050010, 0⟩ = 336 := by
  decide

/-- C2 (as stated) fails: `InputBytesPerLine()` is not the raw low 16 bits
of `input_size_with_padding`. At `input_size_with_padding = 0x00050010`
the accessor returns 256 while the low 16 bits are 0x10 = 16: the size
fields count 16-byte steps, and the accessors scale by 16. -/
theorem C2_counterexample :
    TextureCopyConfig.InputBytesPerLine ⟨0, 0x00050010, 0⟩ ≠ 0x00050010 &&& 0xffff := by
  decide

/-- C2 (amended): the low 16 bits of `input_size_with_padding` hold the
bytes-to-copy-per-line in 16-byte units and the high 16 bits the
padding-bytes-per-line in 16-byte units, so `InputBytesPerLine()` equals
`(input_size_with_padding & 0xffff) * 16` and `InputPaddingBytesPerLine()`
equals `(input_size_with_padding >> 16) * 16` (and analogously for the
output accessors): with low half a and high half b, the accessors return
16·a and 16·b. -/
theorem C2_amended_size_with_padding_packing (t a b c d : Nat)
    (ha : a < 2 ^ 16) (hb : b < 2 ^ 16) (hc : c < 2 ^ 16) (hd : d < 2 ^ 16) :
    TextureCopyConfig.InputBytesPerLine ⟨t, a + 2 ^ 16 * b, c + 2 ^ 16 * d⟩ = 16 * a ∧
    TextureCopyConfig.InputPaddingBytesPerLine ⟨t, a + 2 ^ 16 * b, c + 2 ^ 16 * d⟩ = 16 * b ∧
    TextureCopyConfig.OutputBytesPerLine ⟨t, a + 2 ^ 16 * b, c + 2 ^ 16 * d⟩ = 16 * c ∧
    TextureCopyConfig.OutputPaddingBytesPerLine ⟨t, a + 2 ^ 16 * b, c + 2 ^ 16 * d⟩ = 16 * d := by
  have hmask : ∀ x y : Nat, y < 2 ^ 16 → (y + 2 ^ 16 * x) &&& 0xffff = y := by
    intro x y hy
    have h1 := Nat.and_pow_two_sub_one_eq_mod (y + 2 ^ 16 * x) 16
    have h2 : (0xffff : Nat) = 2 ^ 16 - 1 := by norm_num
    rw [h2, h1, Nat.add_mul_mod_self_left, Nat.mod_eq_of_lt hy]
  have hshift : ∀ x y : Nat, y < 2 ^ 16 → (y + 2 ^ 16 * x) >>> 16 = x := by
    intro x y hy
    rw [Nat.shiftRight_eq_div_pow, Nat.add_mul_div_left _ _ (by norm_num : 0 < 2 ^ 16),
      Nat.div_eq_of_lt hy, Nat.zero_add]
  refine ⟨?_, ?_, ?_, ?_⟩
  · show (a + 2 ^ 16 * b &&& 0xffff) * 16 % U32_MOD = 16 * a
    rw [hmask b a ha, Nat.mod_eq_of_lt (by unfold U32_MOD; omega)]
    omega
  · show (a + 2 ^ 16 * b) >>> 16 * 16 % U32_MOD = 16 * b
    rw [hshift b a ha, Nat.mod_eq_of_lt (by unfold U32_MOD; omega)]
    omega
  · show (c + 2 ^ 16 * d &&& 0xffff) * 16 % U32_MOD = 16 * c
    rw [hmask d c hc, Nat.mod_eq_of_lt (by unfold U32_MOD; omega)]
    omega
  · show (c + 2 ^ 16 * d) >>> 16 * 16 % U32_MOD = 16 * d
    rw [hshift d c hc, Nat.mod_eq_of_lt (by unfold U32_MOD; omega)]
    omega

/-- Witness for C2's amended theorem at low half 0x10, high half 0x5. -/
theorem C2_amended_witness :
    (0x10 : Nat) < 2 ^ 16 ∧ (0x5 : Nat) < 2 ^ 16 ∧
    TextureCopyConfig.InputBytesPerLine ⟨0, 0x10 + 2 ^ 16 * 0x5, 0x2 + 2 ^ 16 * 0x3⟩ = 16 * 0x10 := by
  refine ⟨by decide, by decide, ?_⟩
  exact (C2_amended_size_with_padding_packing 0 0x10 0x5 0x2 0x3 (by decide) (by decide)
    (by decide) (by decide)).1

/-- Modelled from the spec: the format lookup (§7 "InvalidFormat: format
code outside the 5 defined values — surfaced at point of use (format
lookup)"); the consumer performing the lookup over `format_map` is not
under src/. A raw code indexes `format_map`; codes outside the table fail
with InvalidFormat. -/
def lookupFormat (raw : Nat) : Except GPUError GenericImageFormat :=
  match FramebufferFormat.format_map[raw]? with
  | some fmt => Except.ok fmt
  | none => Except.error GPUError.InvalidFormat

/-- C7: the framebuffer format table maps exactly the five codes 0→RGBA8,
1→RGB8, 2→RGB565, 3→RGBA5551, 4→RGBA4; looking up raw = 2 yields RGB565,
and looking up any raw value outside 0..4 (e.g. raw = 5) fails with
InvalidFormat rather than silently returning a fallback format. -/
theorem C7_format_table :
    FramebufferFormat.format_map.length = 5 ∧
    lookupFormat 0 = Except.ok GenericImageFormat.RGBA8 ∧
    lookupFormat 1 = Except.ok GenericImageFormat.RGB8 ∧
    lookupFormat 2 = Except.ok GenericImageFormat.RGB565 ∧
    lookupFormat 3 = Except.ok GenericImageFormat.RGBA5551 ∧
    lookupFormat 4 = Except.ok GenericImageFormat.RGBA4 ∧
    (∀ raw : Nat, 5 ≤ raw → lookupFormat raw = Except.error GPUError.InvalidFormat) := by
  refine ⟨rfl, rfl, rfl, rfl, rfl, rfl, ?_⟩
  intro raw hraw
  have hnone : FramebufferFormat.format_map[raw]? = none := by
    apply List.getElem?_eq_none
    simpa [FramebufferFormat.format_map] using hraw
  simp [lookupFormat, hnone]

/-- Witness for C7 at the out-of-table code 5. -/
theorem C7_witness :
    5 ≤ 5 ∧ lookupFormat 5 = Except.error GPUError.InvalidFormat :=
  ⟨by decide, C7_format_table.2.2.2.2.2.2 5 (by decide)⟩

/-- Modelled from the spec: the command-processor trigger step (§4.6); the
implementation of `Write`'s trigger dispatch (gpu.cpp) is not under src/.
On trigger it decodes the address register via `GetPhysicalAddress` (from
the source) and delegates the pair (physical address, unit count = size)
to the external command-list interpreter collaborator. -/
def commandProcessorDelegation (c : CommandProcessorConfig) : Nat × Nat :=
  (c.GetPhysicalAddress, c.size)

/-- C9: when the command processor is triggered with
`command_processor_config.size = 4` and `.address = 0x1000`, the
command-list collaborator is invoked with physical address
0x8000 = 0x1000 * 8 and unit count 4. -/
theorem C9_command_processor_trigger :
    commandProcessorDelegation ⟨4, 0x1000, 1⟩ = (0x8000, 4) := by
  decide

/-- C10: for 32-bit size fields, `InputTotalBytesPerLine()` is the exact
sum `InputBytesPerLine() + InputPaddingBytesPerLine()` (no wraparound),
likewise for the output accessors, and all six derived per-line byte
quantities are multiples of 16. -/
theorem C10_per_line_algebra (c : TextureCopyConfig)
    (hin : c.input_size_with_padding < U32_MOD)
    (hout : c.output_size_with_padding < U32_MOD) :
    c.InputTotalBytesPerLine = c.InputBytesPerLine + c.InputPaddingBytesPerLine ∧
    c.OutputTotalBytesPerLine = c.OutputBytesPerLine + c.OutputPaddingBytesPerLine ∧
    16 ∣ c.InputBytesPerLine ∧ 16 ∣ c.InputPaddingBytesPerLine ∧
    16 ∣ c.InputTotalBytesPerLine ∧ 16 ∣ c.OutputBytesPerLine ∧
    16 ∣ c.OutputPaddingBytesPerLine ∧ 16 ∣ c.OutputTotalBytesPerLine := by
  have hU : U32_MOD = 2 ^ 32 := by norm_num [U32_MOD]
  have handIn : c.input_size_with_padding &&& 0xffff ≤ 0xffff := Nat.and_le_right
  have handOut : c.output_size_with_padding &&& 0xffff ≤ 0xffff := Nat.and_le_right
  have hshIn : c.input_size_with_padding >>> 16 < 2 ^ 16 := by
    rw [Nat.shiftRight_eq_div_pow]
    exact Nat.div_lt_of_lt_mul (by rw [hU] at hin; omega)
  have hshOut : c.output_size_with_padding >>> 16 < 2 ^ 16 := by
    rw [Nat.shiftRight_eq_div_pow]
    exact Nat.div_lt_of_lt_mul (by rw [hU] at hout; omega)
  have hbIn : c.InputBytesPerLine = (c.input_size_with_padding &&& 0xffff) * 16 := by
    unfold TextureCopyConfig.InputBytesPerLine
    exact Nat.mod_eq_of_lt (by rw [hU]; omega)
  have hbOut : c.OutputBytesPerLine = (c.output_size_with_padding &&& 0xffff) * 16 := by
    unfold TextureCopyConfig.OutputBytesPerLine
    exact Nat.mod_eq_of_lt (by rw [hU]; omega)
  have hpIn : c.InputPaddingBytesPerLine = (c.input_size_with_padding >>> 16) * 16 := by
    unfold TextureCopyConfig.InputPaddingBytesPerLine
    exact Nat.mod_eq_of_lt (by rw [hU]; omega)
  have hpOut : c.OutputPaddingBytesPerLine = (c.output_size_with_padding >>> 16) * 16 := by
    unfold TextureCopyConfig.OutputPaddingBytesPerLine
    exact Nat.mod_eq_of_lt (by rw [hU]; omega)
  have htIn : c.InputTotalBytesPerLine = c.InputBytesPerLine + c.InputPaddingBytesPerLine := by
    unfold TextureCopyConfig.InputTotalBytesPerLine
    exact Nat.mod_eq_of_lt (by rw [hU, hbIn, hpIn]; omega)
  have htOut : c.OutputTotalBytesPerLine = c.OutputBytesPerLine + c.OutputPaddingBytesPerLine := by
    unfold TextureCopyConfig.OutputTotalBytesPerLine
    exact Nat.mod_eq_of_lt (by rw [hU, hbOut, hpOut]; omega)
  refine ⟨htIn, htOut, ?_, ?_, ?_, ?_, ?_, ?_⟩
  · rw [hbIn]; exact dvd_mul_left 16 _
  · rw [hpIn]; exact dvd_mul_left 16 _
  · rw [htIn, hbIn, hpIn]; exact dvd_add (dvd_mul_left 16 _) (dvd_mul_left 16 _)
  · rw [hbOut]; exact dvd_mul_left 16 _
  · rw [hpOut]; exact dvd_mul_left 16 _
  · rw [htOut, hbOut, hpOut]; exact dvd_add (dvd_mul_left 16 _) (dvd_mul_left 16 _)

/-- Witness for C10 at `input_size_with_padding = 0x00050010`,
`output_size_with_padding = 0x00030002`. -/
theorem C10_witness :
    (0x00050010 : Nat) < U32_MOD ∧ (0x00030002 : Nat) < U32_MOD ∧
    TextureCopyConfig.InputTotalBytesPerLine ⟨0, 0x00050010, 0x00030002⟩ =
      TextureCopyConfig.InputBytesPerLine ⟨0, 0x00050010, 0x00030002⟩ +
      TextureCopyConfig.InputPaddingBytesPerLine ⟨0, 0x00050010, 0x00030002⟩ ∧
    16 ∣ TextureCopyConfig.InputBytesPerLine ⟨0, 0x00050010, 0x00030002⟩ := by
  refine ⟨by decide, by decide, ?_, ?_⟩
  · exact (C10_per_line_algebra ⟨0, 0x00050010, 0x00030002⟩ (by decide) (by decide)).1
  · exact (C10_per_line_algebra ⟨0, 0x00050010, 0x00030002⟩ (by decide) (by decide)).2.2.1

/-- `Regs::operator[]`: reinterprets the register block as a u32 array
(`u32* content = (u32*)this`) and returns `content[index]` with no range
check. Modelled as pointer arithmetic over ambient word-addressed memory
`mem`, with the register file occupying words [base, base + 0x1000). -/
def Regs.opIndex (mem : Int → Nat) (base index : Int) : Nat :=
  mem (base + index)

/-- C3 (as stated) fails: word-indexed access with an index outside
[0, 4095] does not fail with OutOfRange — `operator[]` performs no range
check. With ambient memory holding 42 at word base + 4096 (the first word
outside the 4096-word array) and 0 everywhere inside, indexing at 4096
returns 42: the access silently reads storage outside the array. -/
theorem C3_counterexample :
    Regs.opIndex (fun a => if a = (4096 : Int) then 42 else 0) 0 4096 = 42 ∧
    ¬ ((4096 : Int) ≤ 4095) := by
  constructor
  · rfl
  · decide

/-- C3 (amended): word-indexed access is never range checked: for every
index, `operator[]` reads the ambient memory word at base + index, so an
index outside [0, 4095] silently accesses storage at or beyond the end of
the 4096-word array, and no OutOfRange failure exists. -/
theorem C3_amended_no_bounds_check (mem : Int → Nat) (base index : Int)
    (h : 4096 ≤ index) :
    Regs.opIndex mem base index = mem (base + index) ∧
    base + 4096 ≤ base + index := by
  exact ⟨rfl, by omega⟩

/-- Witness for C3's amended theorem at index 4096. -/
theorem C3_amended_witness :
    (4096 : Int) ≤ 4096 ∧
    Regs.opIndex (fun a => if a = (4096 : Int) then 42 else 0) 0 4096 =
      (fun a => if a = (4096 : Int) then 42 else 0) (0 + 4096) :=
  ⟨by decide,
   (C3_amended_no_bounds_check (fun a => if a = (4096 : Int) then 42 else 0) 0 4096
     (by decide)).1⟩

/-! ## Dispatch interface (spec-modelled)

`Read` and `Write` are only declared in gpu.h; the translation unit
defining them (gpu.cpp) is not under src/, so the entry points below are
modelled from the spec (§4.2, §4.3, §4.6) over the word-indexed register
file (a word-indexed store of 32-bit values). -/

/-- Pointwise store into the word-indexed register file. -/
def writeWord (f : Nat → Nat) (i v : Nat) : Nat → Nat :=
  fun j => if j = i then v else f j

/-- Word index of `memory_fill_config[i].control` (fourth word of the
entry). -/
def memoryFillControlWord (i : Nat) : Nat :=
  memory_fill_config_offset i + 3

/-- Whether w is the control word of one of the two memory-fill units. -/
def isMemoryFillControlWord (w : Nat) : Bool :=
  w == memoryFillControlWord 0 || w == memoryFillControlWord 1

/-- The trigger words of §4.2: `memory_fill_config[i].control`,
`display_transfer_config.trigger` (seventh word of the struct) and
`command_processor_config.trigger` (fifth word of the struct). -/
def isTriggerWord (w : Nat) : Bool :=
  isMemoryFillControlWord w ||
  w == display_transfer_config_offset + 6 ||
  w == command_processor_config_offset + 4

/-- Word offsets of the named (non-padding) fields inside one
`framebuffer_config` entry: size, address_left1, address_left2, format,
active_fb, stride, address_right1, address_right2. -/
def framebufferNamedRel : List Nat := [0, 3, 4, 5, 7, 13, 14, 15]

/-- Word offsets of the named (non-padding) fields inside
`display_transfer_config`: input_address, output_address, the two
display_transfer size words, flags, trigger and the three texture_copy
words. -/
def displayTransferNamedRel : List Nat := [0, 1, 2, 3, 4, 6, 8, 9, 10]

/-- Word offsets of the named (non-padding) fields inside
`command_processor_config`: size, address, trigger. -/
def commandProcessorNamedRel : List Nat := [0, 2, 4]

/-- Whether word index w belongs to a named (non-padding) register field
of `Regs`: the memory-fill entries have no internal padding; the other
structures are tested against their per-struct named-word offsets. -/
def isNamedWord (w : Nat) : Bool :=
  (decide (memory_fill_config_offset 0 ≤ w) &&
    decide (w < memory_fill_config_offset 0 + 2 * memoryFillConfigWords)) ||
  (decide (framebuffer_config_offset 0 ≤ w) &&
    decide (w < framebuffer_config_offset 2) &&
    decide ((w - framebuffer_config_offset 0) % framebufferConfigWords ∈ framebufferNamedRel)) ||
  (decide (display_transfer_config_offset ≤ w) &&
    decide (w < display_transfer_config_offset + displayTransferConfigWords) &&
    decide ((w - display_transfer_config_offset) ∈ displayTransferNamedRel)) ||
  (decide (command_processor_config_offset ≤ w) &&
    decide (w < command_processor_config_offset + commandProcessorConfigWords) &&
    decide ((w - command_processor_config_offset) ∈ commandProcessorNamedRel))

/-- Modelled from the spec: the 32-bit `Write` entry point (§4.2, §4.3);
`Write` is declared in gpu.h but its defining translation unit is not
under src/. The byte offset is converted to a word index (addr / 4);
offsets beyond the 16 KiB space fail with OutOfRange; the value is
stored; if the target is a memory-fill control word and the trigger bit
transitions 0 to 1, the fill engine runs synchronously (the fill itself
is delegated to the external memory collaborator) and on completion the
control word gets finished = 1 and trigger = 0; the display-transfer and
command-processor triggers delegate to external collaborators and update
no status bit. -/
def Write32 (f : Nat → Nat) (addr v : Nat) : Except GPUError (Nat → Nat) :=
  if addr / 4 < regsTotalWords then
    if isMemoryFillControlWord (addr / 4) && decide (f (addr / 4) % 2 = 0)
        && decide (v % 2 = 1) then
      Except.ok (writeWord (writeWord f (addr / 4) v) (addr / 4) (v / 4 * 4 + 2))
    else
      Except.ok (writeWord f (addr / 4) v)
  else
    Except.error GPUError.OutOfRange

/-- Modelled from the spec: the 32-bit `Read` entry point (§4.2);
`Read` is declared in gpu.h but its defining translation unit is not
under src/. Converts the byte offset to a word index, fails with
OutOfRange beyond the 16 KiB space, and returns the current word with no
side effects. -/
def Read32 (f : Nat → Nat) (addr : Nat) : Except GPUError Nat :=
  if addr / 4 < regsTotalWords then
    Except.ok (f (addr / 4))
  else
    Except.error GPUError.OutOfRange

/-- `Write` followed by `Read` at the same byte offset. -/
def writeThenRead (f : Nat → Nat) (addr v : Nat) : Except GPUError Nat :=
  match Write32 f addr v with
  | Except.ok f1 => Read32 f1 addr
  | Except.error e => Except.error e

/-- A non-trigger in-range write stores the value and nothing else. -/
theorem Write32_nonTrigger (f : Nat → Nat) (o v : Nat)
    (hrange : o / 4 < regsTotalWords)
    (hmfc : isMemoryFillControlWord (o / 4) = false) :
    Write32 f o v = Except.ok (writeWord f (o / 4) v) := by
  unfold Write32
  rw [if_pos hrange, hmfc]
  simp

/-- An in-range write to a memory-fill control word whose stored trigger
bit is 0, writing a value with trigger bit 1, stores the value, runs the
fill and completes it: the control word finally holds the written value
with finished forced to 1 and trigger forced to 0. -/
theorem Write32_triggerFill (f : Nat → Nat) (cw v : Nat)
    (hrange : cw < regsTotalWords)
    (hmfc : isMemoryFillControlWord cw = true)
    (hold : f cw % 2 = 0) (hv : v % 2 = 1) :
    Write32 f (cw * 4) v =
      Except.ok (writeWord (writeWord f cw v) cw (v / 4 * 4 + 2)) := by
  have h4 : cw * 4 / 4 = cw := by omega
  unfold Write32
  rw [h4, if_pos hrange, hmfc, decide_eq_true hold, decide_eq_true hv]
  simp

/-- C4: for each i in {0, 1}, a write that sets the trigger bit (bit 0) of
`memory_fill_config[i].control` from 0 to 1 runs the fill, after which the
control word has finished (bit 1) equal to 1 and trigger (bit 0) equal to
0; triggering unit i leaves the other unit's `memory_fill_config` words
unchanged. -/
theorem C4_memory_fill_trigger (f : Nat → Nat) (i v : Nat) (hi : i < 2)
    (hold : f (memoryFillControlWord i) % 2 = 0) (hv : v % 2 = 1) :
    ∃ f1, Write32 f (memoryFillControlWord i * 4) v = Except.ok f1 ∧
      bitField 1 1 (f1 (memoryFillControlWord i)) = 1 ∧
      bitField 0 1 (f1 (memoryFillControlWord i)) = 0 ∧
      ∀ j k, j < 2 → j ≠ i → k < memoryFillConfigWords →
        f1 (memory_fill_config_offset j + k) = f (memory_fill_config_offset j + k) := by
  have hrange : memoryFillControlWord i < regsTotalWords := by
    interval_cases i <;> decide
  have hmfc : isMemoryFillControlWord (memoryFillControlWord i) = true := by
    interval_cases i <;> decide
  refine ⟨writeWord (writeWord f (memoryFillControlWord i) v) (memoryFillControlWord i)
      (v / 4 * 4 + 2),
    Write32_triggerFill f (memoryFillControlWord i) v hrange hmfc hold hv, ?_, ?_, ?_⟩
  · simp only [writeWord, if_pos rfl]
    norm_num [bitField]
    omega
  · simp only [writeWord, if_pos rfl]
    norm_num [bitField]
    omega
  · intro j k hj hji hk
    have hne : memory_fill_config_offset j + k ≠ memoryFillControlWord i := by
      interval_cases i <;> interval_cases j <;>
        simp_all [memory_fill_config_offset, memoryFillControlWord, pad0Words,
          memoryFillConfigWords] <;> omega
    simp only [writeWord, if_neg hne]

/-- Witness for C4 at unit 0, value 1, over the all-zero register file. -/
theorem C4_witness :
    (0 : Nat) < 2 ∧ (fun _ : Nat => 0) (memoryFillControlWord 0) % 2 = 0 ∧
    (1 : Nat) % 2 = 1 ∧
    ∃ f1, Write32 (fun _ => 0) (memoryFillControlWord 0 * 4) 1 = Except.ok f1 ∧
      bitField 1 1 (f1 (memoryFillControlWord 0)) = 1 ∧
      bitField 0 1 (f1 (memoryFillControlWord 0)) = 0 ∧
      ∀ j k, j < 2 → j ≠ 0 → k < memoryFillConfigWords →
        f1 (memory_fill_config_offset j + k) = (fun _ : Nat => 0) (memory_fill_config_offset j + k) :=
  ⟨by decide, by decide, by decide,
   C4_memory_fill_trigger (fun _ => 0) 0 1 (by decide) (by decide) (by decide)⟩

/-- C8: for every valid byte offset o that is neither one of the trigger
words nor padding, and every 32-bit value v, `Write(o, v)` followed by
`Read(o)` returns v. -/
theorem C8_write_read_roundtrip (f : Nat → Nat) (o v : Nat)
    (hrange : o / 4 < regsTotalWords)
    (htrig : isTriggerWord (o / 4) = false)
    (hnamed : isNamedWord (o / 4) = true)
    (hv : v < U32_MOD) :
    writeThenRead f o v = Except.ok v := by
  have hmfc : isMemoryFillControlWord (o / 4) = false := by
    unfold isTriggerWord at htrig
    rcases Bool.or_eq_false_iff.mp htrig with ⟨h1, h2⟩
    rcases Bool.or_eq_false_iff.mp h1 with ⟨h3, h4⟩
    exact h3
  unfold writeThenRead
  rw [Write32_nonTrigger f o v hrange hmfc]
  simp [Read32, hrange, writeWord]

/-- Witness for C8 at the byte offset of
`display_transfer_config.input_address` (word 0x300), value 123. -/
theorem C8_witness :
    (3072 : Nat) / 4 < regsTotalWords ∧ isTriggerWord (3072 / 4) = false ∧
    isNamedWord (3072 / 4) = true ∧ (123 : Nat) < U32_MOD ∧
    writeThenRead (fun _ => 0) 3072 123 = Except.ok 123 :=
  ⟨by decide, by decide, by decide, by decide,
   C8_write_read_roundtrip (fun _ => 0) 3072 123 (by decide) (by decide) (by decide) (by decide)⟩
